/-
  Verification development for `src/retrieval/gcp_index.py` of the
  bclavie/arena repository: a shallow embedding of the `VertexIndex`
  client (constructor, index/endpoint provisioning, embedding batching,
  staging-file sink, and search), together with theorems settling the
  specification claims about it.

  Modelling conventions:
  * The remote Vertex AI service is modelled by a `World` holding the
    display names of the index and endpoint resources that currently
    exist; every remote API call a method performs is recorded in a
    `RemoteCall` trace that the method returns.
  * The local staging file `tmp.json` is modelled as the list of string
    chunks written to it (its real content is their concatenation);
    opening in append mode means new chunks are appended to the list.
  * Python attribute errors and other exceptions are modelled with
    `Except PyErr`.  Python attribute resolution on a `VertexIndex`
    object is modelled by `VertexIndex.getattr`, which enumerates
    exactly the attributes the class and its methods ever define.
  * The external embedding model is abstracted as a per-passage encoding
    function (both source branches, `encode_corpus` and `encode`,
    return one embedding per passage of the batch); the external
    `load_passages` corpus loader and `model_name_as_path` helper live
    outside `src/` and are abstracted as parameters.
-/
import Mathlib

namespace Arena

/-- A retrievable document; the client only ever indexes passages by
their ordinal position, so the payload is abstracted as a string. -/
structure Passage where
  text : String
deriving Repr, DecidableEq, Inhabited

/-- One candidate returned by `endpoint.match`: an id and the raw
distance value reported by the backend. -/
structure Neighbor where
  id : Nat
  distance : Int
deriving Repr, DecidableEq, Inhabited

/-- Python exceptions that the embedded code can raise. -/
inductive PyErr where
  | attributeError (name : String)
  | keyError (id : Nat)
  | typeError
  | indexError
deriving Repr, DecidableEq

/-- Handle to a `MatchingEngineIndex` resource, identified by name. -/
structure IndexHandle where
  name : String
deriving Repr, DecidableEq

/-- Handle to a `MatchingEngineIndexEndpoint` resource, identified by name. -/
structure EndpointHandle where
  name : String
deriving Repr, DecidableEq

/-- The remote Vertex AI resource registry: which index and endpoint
display names currently exist. -/
structure World where
  indexNames : List String
  endpointNames : List String
deriving Repr, DecidableEq

/-- Environment outside the client object: the remote world and the
local staging file `tmp.json` (as the list of chunks written). -/
structure Env where
  world : World
  tmpFile : List String
deriving Repr, DecidableEq

/-- One remote API call, as recorded in a method's call trace. -/
inductive RemoteCall where
  | listIndexes (filterStr : String)
  | createIndex (displayName : String) (dimensions : Nat)
      (distanceMeasureType shardSize indexUpdateMethod : String)
  | uploadBlob (bucketName blobName : String)
  | updateEmbeddings (contentsDeltaUri : String)
  | listEndpoints (filterStr : String)
  | deployIndex (deployedIndexId displayName machineType : String)
      (minReplicaCount maxReplicaCount : Nat)
  | matchQuery (deployedIndexId : String) (numNeighbors : Nat)
deriving Repr, DecidableEq

/-- Class constant `MACHINE_TYPE`. -/
def MACHINE_TYPE : String := "e2-standard-16"

/-- Class constant `PROJECT_ID`. -/
def PROJECT_ID : String := "[your_project_id]"

/-- Class constant `REGION`. -/
def REGION : String := "us-central1"

/-- Class constant `GCS_BUCKET_NAME`. -/
def GCS_BUCKET_NAME : String := "GCS_BUCKET_NAME"

/-- Class constant `GCS_BUCKET_URI` (an f-string over the bucket name). -/
def GCS_BUCKET_URI : String := "gs://" ++ GCS_BUCKET_NAME

/-- Class constant `TMP_FILE_PATH`. -/
def TMP_FILE_PATH : String := "tmp.json"

/-- The instance attributes a `VertexIndex` object carries: the ones the
constructor assigns (`dim`, `index_name`, `endpoint_name`, `doc_map`)
plus the class-level `index` and `endpoint` handles, which start out as
Python `None` (modelled with `Option`) and are assigned by the methods. -/
structure VertexIndex where
  dim : Nat
  index_name : String
  endpoint_name : String
  doc_map : List (Nat × Passage)
  index : Option IndexHandle
  endpoint : Option EndpointHandle
deriving Repr, DecidableEq

/-- Embedding of `VertexIndex.__init__`.  `model_name_as_path` is the
repository helper imported from `..models` (its source is outside
`src/`), abstracted as a function parameter: the filesystem-safe
transform of the model identifier. -/
def VertexIndex.init (dim : Nat) (model_name_as_path : String → String)
    (model_name : String) : VertexIndex :=
  let model_path := model_name_as_path model_name
  { dim := dim
    index_name := "index_" ++ model_path
    endpoint_name := "endpoint_" ++ model_path
    doc_map := []
    index := none
    endpoint := none }

/-- Values a `VertexIndex` attribute can hold, for modelling Python
attribute resolution. -/
inductive PyVal where
  | pyNone
  | vNat (n : Nat)
  | vStr (s : String)
  | vIndex (h : IndexHandle)
  | vEndpoint (h : EndpointHandle)
  | vDocMap (m : List (Nat × Passage))
  | vModel
deriving Repr, DecidableEq

/-- Python attribute resolution on a `VertexIndex` object: instance
attributes assigned by `__init__` or by the methods, then the class
attributes (`index = None`, `endpoint = None` and the constants).  Any
other attribute name resolves to nothing, i.e. raises `AttributeError`.
In particular no method of the class ever assigns an attribute named
`doc` (the mapping is stored under `doc_map`). -/
def VertexIndex.getattr (st : VertexIndex) (a : String) : Option PyVal :=
  if a = "dim" then some (PyVal.vNat st.dim)
  else if a = "model" then some PyVal.vModel
  else if a = "index_name" then some (PyVal.vStr st.index_name)
  else if a = "endpoint_name" then some (PyVal.vStr st.endpoint_name)
  else if a = "doc_map" then some (PyVal.vDocMap st.doc_map)
  else if a = "index" then
    some (match st.index with
      | some h => PyVal.vIndex h
      | none => PyVal.pyNone)
  else if a = "endpoint" then
    some (match st.endpoint with
      | some h => PyVal.vEndpoint h
      | none => PyVal.pyNone)
  else if a = "PROJECT_ID" then some (PyVal.vStr PROJECT_ID)
  else if a = "REGION" then some (PyVal.vStr REGION)
  else if a = "MACHINE_TYPE" then some (PyVal.vStr MACHINE_TYPE)
  else if a = "GCS_BUCKET_NAME" then some (PyVal.vStr GCS_BUCKET_NAME)
  else if a = "GCS_BUCKET_URI" then some (PyVal.vStr GCS_BUCKET_URI)
  else if a = "TMP_FILE_PATH" then some (PyVal.vStr TMP_FILE_PATH)
  else none

/-- Python subscript `v[i]` for an integer key: succeeds only on a dict
value containing the key (otherwise `KeyError`); non-subscriptable
values raise `TypeError`. -/
def pySubscript (v : PyVal) (i : Nat) : Except PyErr Passage :=
  match v with
  | PyVal.vDocMap m =>
    match m.lookup i with
    | some d => Except.ok d
    | none => Except.error (PyErr.keyError i)
  | _ => Except.error PyErr.typeError

/-- Evaluation of a Python list comprehension whose body may raise:
elements are produced left to right and the first exception aborts. -/
def pyListMap (f : Neighbor → Except PyErr Passage) :
    List Neighbor → Except PyErr (List Passage)
  | [] => Except.ok []
  | x :: xs => do
    let d ← f x
    let ds ← pyListMap f xs
    Except.ok (d :: ds)

/-- Stable insertion used to model Python `sorted(..., reverse=True)`:
`x` is placed before the first element whose distance is at most
`x.distance`, so equal keys keep their original relative order. -/
def insertDesc (x : Neighbor) : List Neighbor → List Neighbor
  | [] => [x]
  | y :: ys => if y.distance ≤ x.distance then x :: y :: ys else y :: insertDesc x ys

/-- Model of `sorted(l, key=lambda x: x.distance, reverse=True)`: the
stable sort of `l` by descending raw distance value. -/
def pySortedDesc (l : List Neighbor) : List Neighbor :=
  l.foldr insertDesc []

/-- Model of `json.dumps` on a string: quote it (the payloads written by
this client, decimal ids and stringified numbers, contain no characters
that JSON escapes). -/
def jsonStr (s : String) : String := "\"" ++ s ++ "\""

/-- Model of `json.dumps` on a list of strings: bracketed, separated by
the default item separator. -/
def jsonArrOfStrings (xs : List String) : String :=
  "[" ++ String.intercalate ", " (xs.map jsonStr) ++ "]"

/-- Model of `json.dumps` on the two-field dict the sink builds, with
the default separators of `json.dumps`. -/
def jsonDumpsRecord (idStr : String) (embStrs : List String) : String :=
  "\x7b" ++ String.intercalate ", "
    ["\"id\": " ++ jsonStr idStr, "\"embedding\": " ++ jsonArrOfStrings embStrs]
  ++ "\x7d"

/-- One line written by the sink for the pair `(idx, emb)`:
`json.dumps({"id": str(index), "embedding": [str(value) for value in embedding]}) + "\n"`.
`sRepr` abstracts Python `str` on an embedding component. -/
def pyJsonLine {α : Type} (sRepr : α → String) (idx : Nat) (emb : List α) : String :=
  jsonDumpsRecord (toString idx) (emb.map sRepr) ++ "\n"

/-- Embedding of `VertexIndex._write_embeddings_to_tmp_file`: the file is
opened in append mode and one formatted line per `zip(indices, embeddings)`
pair is appended. -/
def VertexIndex._write_embeddings_to_tmp_file {α : Type} (sRepr : α → String)
    (file : List String) (embeddings : List (List α)) (indices : List Nat) :
    List String :=
  file ++ (indices.zip embeddings).map (fun r => pyJsonLine sRepr r.1 r.2)

/-- `math.ceil(N / B)` for naturals, as computed in `_write_embeddings`. -/
def nBatch (N B : Nat) : Nat := (N + B - 1) / B

/-- The slice `passages[i*B : (i+1)*B]` taken by batch `i`. -/
def batchOf (passages : List Passage) (B i : Nat) : List Passage :=
  (passages.drop (i * B)).take B

/-- The id range `range(i*B, (i+1)*B)` computed for batch `i`. -/
def indicesOf (B i : Nat) : List Nat := List.range' (i * B) B

section Embedding

variable {α : Type} (encode : Passage → List α) (sRepr : α → String)
variable (passages : List Passage)

/-- The `(id, embedding)` records batch `i` hands to the sink:
`zip(indices, embeddings)`, where `embeddings` has one vector per
passage of the batch (`zip` truncates to the shorter list). -/
def recordsOf (B i : Nat) : List (Nat × List α) :=
  (indicesOf B i).zip ((batchOf passages B i).map encode)

/-- All records produced for the corpus, over all batches in order. -/
def allRecords (B : Nat) : List (Nat × List α) :=
  ((List.range (nBatch passages.length B)).map (recordsOf encode passages B)).flatten

/-- Embedding of `VertexIndex._write_embeddings`: rebuilds `doc_map`
from the enumerated corpus (read by the external `load_passages`,
abstracted as the `passages` parameter), then encodes the corpus in
batches of `gpu_embedder_batch_size` and appends each batch's records to
the staging file. -/
def VertexIndex._write_embeddings (st : VertexIndex) (env : Env)
    (gpu_embedder_batch_size : Nat := 512) : VertexIndex × Env :=
  let B := gpu_embedder_batch_size
  let st1 := { st with doc_map := passages.enum }
  let file1 := (List.range (nBatch passages.length B)).foldl
    (fun f i => VertexIndex._write_embeddings_to_tmp_file sRepr f
      ((batchOf passages B i).map encode) (indicesOf B i))
    env.tmpFile
  (st1, { env with tmpFile := file1 })

/-- Embedding of `VertexIndex._index_exists`: lists remote indexes whose
display name equals `self.index_name` and returns the length of that
list (Python truthiness: nonzero means it exists). -/
def VertexIndex._index_exists (st : VertexIndex) (w : World) :
    Nat × List RemoteCall :=
  ((w.indexNames.filter (fun n => n == st.index_name)).length,
    [RemoteCall.listIndexes ("display_name=" ++ st.index_name)])

/-- Embedding of `VertexIndex._endpoint_exists`: the same existence
check against the endpoint display names. -/
def VertexIndex._endpoint_exists (st : VertexIndex) (w : World) :
    Nat × List RemoteCall :=
  ((w.endpointNames.filter (fun n => n == st.endpoint_name)).length,
    [RemoteCall.listEndpoints ("display_name=" ++ st.endpoint_name)])

/-- Embedding of `VertexIndex._upload_embedding_file`: uploads the
staging file to the bucket under its fixed name. -/
def VertexIndex._upload_embedding_file : List RemoteCall :=
  [RemoteCall.uploadBlob GCS_BUCKET_NAME TMP_FILE_PATH]

/-- Embedding of `VertexIndex._create_index`: creates the empty index
(with the configured dimensionality, dot-product distance, small shards
and streaming updates) and binds the handle, then runs
`_write_embeddings`, then `_upload_embedding_file`, then triggers
`update_embeddings` from the bucket URI.  Creation registers the display
name in the remote world. -/
def VertexIndex._create_index (st : VertexIndex) (env : Env) :
    VertexIndex × Env × List RemoteCall :=
  let st1 := { st with index := some ({ name := st.index_name }) }
  let env1 := { env with world :=
    { env.world with indexNames := env.world.indexNames ++ [st.index_name] } }
  let w := VertexIndex._write_embeddings encode sRepr passages st1 env1 512
  (w.1, w.2,
    [RemoteCall.createIndex st.index_name st.dim
        "DOT_PRODUCT_DISTANCE" "SHARD_SIZE_SMALL" "STREAM_UPDATE"]
      ++ VertexIndex._upload_embedding_file
      ++ [RemoteCall.updateEmbeddings GCS_BUCKET_URI])

/-- Embedding of `VertexIndex.load_index`: checks existence of the
display name remotely; if found, binds the handle and returns,
otherwise runs `_create_index`.  (The method performs the remote
existence check unconditionally: it does not test whether `self.index`
is already bound.) -/
def VertexIndex.load_index (st : VertexIndex) (env : Env) :
    VertexIndex × Env × List RemoteCall :=
  let r := VertexIndex._index_exists st env.world
  if r.1 ≠ 0 then
    ({ st with index := some ({ name := st.index_name }) }, env, r.2)
  else
    let c := VertexIndex._create_index encode sRepr passages st env
    (c.1, c.2.1, r.2 ++ c.2.2)

/-- Embedding of `VertexIndex.load_endpoint`: if `self.index` is `None`,
first runs `load_index`; then checks endpoint existence; if found, binds
the endpoint handle.  Otherwise the deploy branch evaluates the log
f-string, which reads `self.index.display_name` and then
`self.endpoint.display_name`; since `self.endpoint` is `None` on that
path unless an endpoint handle was bound earlier, this raises
`AttributeError` before any deployment happens.  Only when a previously
bound endpoint handle is present does `self.endpoint.deploy_index(...)`
run, with `deployed_index_id` and `display_name` equal to the index
display name, the fixed machine type and replica counts `1`/`1`. -/
def VertexIndex.load_endpoint (st : VertexIndex) (env : Env) :
    Except PyErr (VertexIndex × Env × List RemoteCall) :=
  let l :=
    match st.index with
    | none => VertexIndex.load_index encode sRepr passages st env
    | some _ => (st, env, [])
  let st1 := l.1
  let env1 := l.2.1
  let e := VertexIndex._endpoint_exists st1 env1.world
  if e.1 ≠ 0 then
    Except.ok ({ st1 with endpoint := some ({ name := st1.endpoint_name }) },
      env1, l.2.2 ++ e.2)
  else
    match st1.index, st1.endpoint with
    | none, _ => Except.error (PyErr.attributeError "display_name")
    | some _, none => Except.error (PyErr.attributeError "display_name")
    | some _, some h =>
      Except.ok ({ st1 with endpoint := some h }, env1,
        l.2.2 ++ e.2
          ++ [RemoteCall.deployIndex st1.index_name st1.index_name MACHINE_TYPE 1 1])

/-- Embedding of `VertexIndex.search`: ensures an endpoint is bound,
issues the match query (`deployed_index_id = self.index_name`,
`num_neighbors = topk`; the backend's per-query candidate lists are the
`response` parameter), sorts the first query's candidates by descending
raw distance, and maps each candidate through `self.doc[x.id]` — an
attribute access resolved by `getattr`, since the class never assigns
an attribute named `doc`. -/
def VertexIndex.search (st : VertexIndex) (env : Env)
    (response : List (List Neighbor)) (topk : Nat := 1) :
    Except PyErr (List Passage × VertexIndex × Env × List RemoteCall) := do
  let r ←
    match st.endpoint with
    | none => VertexIndex.load_endpoint encode sRepr passages st env
    | some _ => Except.ok (st, env, ([] : List RemoteCall))
  let st1 := r.1
  let env1 := r.2.1
  let calls := r.2.2 ++ [RemoteCall.matchQuery st1.index_name topk]
  match response with
  | [] => Except.error PyErr.indexError
  | first :: _ =>
    let sorted_data := pySortedDesc first
    let docs ← pyListMap (fun x =>
      match VertexIndex.getattr st1 "doc" with
      | some v => pySubscript v x.id
      | none => Except.error (PyErr.attributeError "doc")) sorted_data
    Except.ok (docs, st1, env1, calls)

end Embedding

/-- Whether a remote call is an index-creation call. -/
def RemoteCall.isCreate : RemoteCall → Bool
  | RemoteCall.createIndex _ _ _ _ _ => true
  | _ => false

/-- Whether a remote call is a bucket upload. -/
def RemoteCall.isUpload : RemoteCall → Bool
  | RemoteCall.uploadBlob _ _ => true
  | _ => false

/-! ## Helper lemmas about the embedded definitions -/

lemma length_insertDesc (x : Neighbor) (l : List Neighbor) :
    (insertDesc x l).length = l.length + 1 := by
  induction l with
  | nil => rfl
  | cons y ys ih =>
    unfold insertDesc
    by_cases h : y.distance ≤ x.distance <;> simp [h, ih]

lemma length_pySortedDesc (l : List Neighbor) :
    (pySortedDesc l).length = l.length := by
  induction l with
  | nil => rfl
  | cons y ys ih =>
    unfold pySortedDesc at ih ⊢
    simp [List.foldr_cons, length_insertDesc, ih]

lemma pySortedDesc_ne_nil (x : Neighbor) (xs : List Neighbor) :
    pySortedDesc (x :: xs) ≠ [] := by
  intro h
  have := length_pySortedDesc (x :: xs)
  rw [h] at this
  simp at this

lemma getattr_doc (st : VertexIndex) : VertexIndex.getattr st "doc" = none := rfl

lemma pyListMap_error {f : Neighbor → Except PyErr Passage} {e : PyErr}
    (hf : ∀ z, f z = Except.error e) {l : List Neighbor} (hl : l ≠ []) :
    pyListMap f l = Except.error e := by
  cases l with
  | nil => exact absurd rfl hl
  | cons x xs =>
    show Except.bind (f x) _ = Except.error e
    rw [hf x]
    rfl

lemma pyListMap_ok_nil {f : Neighbor → Except PyErr Passage} {e : PyErr}
    (hf : ∀ z, f z = Except.error e) {l : List Neighbor} {v : List Passage}
    (h : pyListMap f l = Except.ok v) : v = [] := by
  cases l with
  | nil => simpa [pyListMap] using h.symm
  | cons x xs => rw [pyListMap_error hf (by simp)] at h; exact absurd h (by simp)

lemma filter_beq_length_ne_zero {a : String} {l : List String} (h : a ∈ l) :
    (l.filter (fun n => n == a)).length ≠ 0 := by
  intro hlen
  have h0 : l.filter (fun n => n == a) = [] := List.length_eq_zero.mp hlen
  have hm : a ∈ l.filter (fun n => n == a) := List.mem_filter.mpr ⟨h, by simp⟩
  rw [h0] at hm
  exact absurd hm (List.not_mem_nil a)

lemma filter_beq_length_zero {a : String} {l : List String} (h : a ∉ l) :
    (l.filter (fun n => n == a)).length = 0 := by
  rw [List.length_eq_zero, List.filter_eq_nil_iff]
  intro b hb
  simp only [beq_iff_eq]
  intro hba
  exact h (hba ▸ hb)

lemma foldl_append_flatten (g : Nat → List String) :
    ∀ (l : List Nat) (f : List String),
      l.foldl (fun acc i => acc ++ g i) f = f ++ (l.map g).flatten := by
  intro l
  induction l with
  | nil => intro f; simp
  | cons x xs ih => intro f; simp [ih, List.append_assoc]

/-! ### Arithmetic of the batch count -/

lemma nBatch_zero {B : Nat} (hB : 0 < B) : nBatch 0 B = 0 := by
  unfold nBatch
  exact Nat.div_eq_of_lt (by omega)

lemma nBatch_succ {k B : Nat} (hB : 0 < B) : nBatch (k + 1) B = k / B + 1 := by
  unfold nBatch
  have h1 : k + 1 + B - 1 = k + B := by omega
  rw [h1, Nat.add_div_right _ hB]

lemma nBatch_eq_zero_iff {N B : Nat} (hB : 0 < B) : nBatch N B = 0 ↔ N = 0 := by
  cases N with
  | zero => simp [nBatch_zero hB]
  | succ k => simp [nBatch_succ hB]

lemma nBatch_le {N B m : Nat} (hB : 0 < B) (h : N ≤ m * B) : nBatch N B ≤ m := by
  have h2 : N + B - 1 < (m + 1) * B := by
    obtain ⟨A, hA⟩ : ∃ A, m * B = A := ⟨_, rfl⟩
    rw [Nat.succ_mul, hA]
    rw [hA] at h
    omega
  have h3 := (Nat.div_lt_iff_lt_mul hB).mpr h2
  unfold nBatch
  omega

lemma nBatch_mul_ge {N B : Nat} (hB : 0 < B) : N ≤ nBatch N B * B := by
  cases N with
  | zero => simp
  | succ k =>
    rw [nBatch_succ hB]
    have h : k < (k / B + 1) * B := (Nat.div_lt_iff_lt_mul hB).mp (Nat.lt_succ_self _)
    exact Nat.succ_le_of_lt h

lemma nBatch_lt {N B n : Nat} (hB : 0 < B) (h : nBatch N B = n + 1) : n * B < N := by
  by_contra hc
  push_neg at hc
  have := nBatch_le hB hc
  omega

/-! ### The ids written across batches form a contiguous range -/

lemma zip_map_fst {γ δ : Type} :
    ∀ (a : List γ) (b : List δ), (a.zip b).map Prod.fst = a.take b.length
  | [], _ => by simp
  | _ :: _, [] => by simp
  | x :: xs, y :: ys => by simp [zip_map_fst xs ys]

lemma take_range' :
    ∀ (n s m : Nat), (List.range' s n).take m = List.range' s (min m n)
  | 0, _, _ => by simp
  | _ + 1, _, 0 => by simp
  | n + 1, s, m + 1 => by
    rw [List.range'_succ, List.take_succ_cons, take_range' n (s + 1) m,
      Nat.succ_min_succ, List.range'_succ]

lemma flatten_full_batches (B : Nat) :
    ∀ (n s : Nat),
      ((List.range n).map (fun i => List.range' (i * B + s) B)).flatten
        = List.range' s (n * B) := by
  intro n
  induction n with
  | zero => intro s; simp
  | succ k ih =>
    intro s
    rw [List.range_succ, List.map_append, List.flatten_append, ih]
    simp only [List.map_cons, List.map_nil, List.flatten_cons, List.flatten_nil,
      List.append_nil]
    have h := List.range'_append s (k * B) B 1
    simp only [Nat.one_mul] at h
    have harith : k * B + s = s + k * B := Nat.add_comm _ _
    rw [harith, h]
    congr 1
    rw [Nat.succ_mul, Nat.add_comm]

lemma flatten_batches {B : Nat} (hB : 0 < B) (N : Nat) :
    ((List.range (nBatch N B)).map
        (fun i => List.range' (i * B) (min B (N - i * B)))).flatten
      = List.range N := by
  cases hn : nBatch N B with
  | zero =>
    have h0 : N = 0 := (nBatch_eq_zero_iff hB).mp hn
    subst h0
    simp
  | succ n =>
    have hlt : n * B < N := nBatch_lt hB hn
    have hub : N ≤ (n + 1) * B := by
      have h := nBatch_mul_ge (N := N) hB
      rw [hn] at h
      exact h
    rw [List.range_succ, List.map_append, List.flatten_append]
    have hfull : ∀ i ∈ List.range n,
        List.range' (i * B) (min B (N - i * B)) = List.range' (i * B + 0) B := by
      intro i hi
      have hi' := List.mem_range.mp hi
      have h1 : i * B + B ≤ n * B := by
        have h2 : (i + 1) * B ≤ n * B := Nat.mul_le_mul_right B (by omega)
        rw [Nat.succ_mul] at h2
        exact h2
      have h3 : B ≤ N - i * B := Nat.le_sub_of_add_le (by omega)
      rw [Nat.min_eq_left h3, Nat.add_zero]
    rw [List.map_congr_left hfull, flatten_full_batches]
    simp only [List.map_cons, List.map_nil, List.flatten_cons, List.flatten_nil,
      List.append_nil]
    obtain ⟨A, hA⟩ : ∃ A, n * B = A := ⟨_, rfl⟩
    rw [Nat.succ_mul, hA] at hub
    rw [hA] at hlt ⊢
    have hmin : min B (N - A) = N - A := Nat.min_eq_right (by omega)
    rw [hmin]
    have h := List.range'_append 0 A (N - A) 1
    simp only [Nat.one_mul, Nat.zero_add] at h
    rw [h, List.range_eq_range']
    congr 1
    omega

/-! ### Characterizations of the embedded methods -/

lemma bind_ok {ε A B : Type} (a : A) (k : A → Except ε B) :
    (Except.ok a : Except ε A) >>= k = k a := rfl

lemma bind_error {ε A B : Type} (e : ε) (k : A → Except ε B) :
    (Except.error e : Except ε A) >>= k = Except.error e := rfl

lemma recordsOf_fst {α : Type} (encode : Passage → List α) (passages : List Passage)
    (B i : Nat) :
    (recordsOf encode passages B i).map Prod.fst
      = List.range' (i * B) (min B (passages.length - i * B)) := by
  unfold recordsOf indicesOf batchOf
  rw [zip_map_fst, List.length_map, List.length_take, List.length_drop, take_range']
  congr 1
  exact Nat.min_eq_left (Nat.min_le_left _ _)

lemma allRecords_fst {α : Type} (encode : Passage → List α) (passages : List Passage)
    {B : Nat} (hB : 0 < B) :
    (allRecords encode passages B).map Prod.fst = List.range passages.length := by
  unfold allRecords
  rw [List.map_flatten, List.map_map]
  have hc : ∀ i ∈ List.range (nBatch passages.length B),
      (List.map Prod.fst ∘ recordsOf encode passages B) i
        = List.range' (i * B) (min B (passages.length - i * B)) := by
    intro i _
    exact recordsOf_fst encode passages B i
  rw [List.map_congr_left hc, flatten_batches hB]

lemma write_embeddings_eq {α : Type} (encode : Passage → List α) (sRepr : α → String)
    (passages : List Passage) (st : VertexIndex) (env : Env) (B : Nat) :
    VertexIndex._write_embeddings encode sRepr passages st env B
      = ({ st with doc_map := passages.enum },
         { env with tmpFile := env.tmpFile
            ++ (allRecords encode passages B).map (fun r => pyJsonLine sRepr r.1 r.2) }) := by
  simp only [VertexIndex._write_embeddings, VertexIndex._write_embeddings_to_tmp_file]
  rw [foldl_append_flatten]
  simp only [allRecords, List.map_flatten, List.map_map, Function.comp_def, recordsOf]

lemma load_index_present {α : Type} (encode : Passage → List α) (sRepr : α → String)
    (passages : List Passage) (st : VertexIndex) (env : Env)
    (h : st.index_name ∈ env.world.indexNames) :
    VertexIndex.load_index encode sRepr passages st env
      = ({ st with index := some ({ name := st.index_name }) }, env,
         [RemoteCall.listIndexes ("display_name=" ++ st.index_name)]) := by
  simp only [VertexIndex.load_index, VertexIndex._index_exists]
  rw [if_pos (filter_beq_length_ne_zero h)]

lemma load_index_absent {α : Type} (encode : Passage → List α) (sRepr : α → String)
    (passages : List Passage) (st : VertexIndex) (env : Env)
    (h : st.index_name ∉ env.world.indexNames) :
    VertexIndex.load_index encode sRepr passages st env
      = ({ st with index := some ({ name := st.index_name }), doc_map := passages.enum },
         { world := { indexNames := env.world.indexNames ++ [st.index_name],
                      endpointNames := env.world.endpointNames },
           tmpFile := env.tmpFile
             ++ (allRecords encode passages 512).map (fun r => pyJsonLine sRepr r.1 r.2) },
         [RemoteCall.listIndexes ("display_name=" ++ st.index_name),
          RemoteCall.createIndex st.index_name st.dim
            "DOT_PRODUCT_DISTANCE" "SHARD_SIZE_SMALL" "STREAM_UPDATE",
          RemoteCall.uploadBlob GCS_BUCKET_NAME TMP_FILE_PATH,
          RemoteCall.updateEmbeddings GCS_BUCKET_URI]) := by
  simp only [VertexIndex.load_index, VertexIndex._index_exists]
  rw [filter_beq_length_zero h]
  simp only [ne_eq, not_true_eq_false, if_false, ite_false]
  simp only [VertexIndex._create_index, VertexIndex._upload_embedding_file,
    write_embeddings_eq]
  rfl

lemma load_endpoint_bound_present {α : Type} (encode : Passage → List α)
    (sRepr : α → String) (passages : List Passage) (st : VertexIndex) (env : Env)
    (hidx : ∃ hh, st.index = some hh) (h : st.endpoint_name ∈ env.world.endpointNames) :
    VertexIndex.load_endpoint encode sRepr passages st env
      = Except.ok ({ st with endpoint := some ({ name := st.endpoint_name }) }, env,
          [RemoteCall.listEndpoints ("display_name=" ++ st.endpoint_name)]) := by
  obtain ⟨hh, hst⟩ := hidx
  simp only [VertexIndex.load_endpoint, hst, VertexIndex._endpoint_exists]
  rw [if_pos (filter_beq_length_ne_zero h)]
  rfl

/-! ## Claim theorems -/

/-- C9: for every model identifier, the constructor derives the resource names
deterministically from the filesystem-safe transform of the model identifier:
the index display name is `index_` followed by the model path and the endpoint
display name is `endpoint_` followed by the same model path. -/
theorem c9_constructor_naming (dim : Nat) (model_name_as_path : String → String)
    (model_name : String) :
    (VertexIndex.init dim model_name_as_path model_name).index_name
        = "index_" ++ model_name_as_path model_name ∧
    (VertexIndex.init dim model_name_as_path model_name).endpoint_name
        = "endpoint_" ++ model_name_as_path model_name :=
  ⟨rfl, rfl⟩

/-- C4: for every corpus of `N` passages and every batch size `B > 0`, the
embedding batcher produces exactly `ceil(N/B)` batches (`nBatch N B` is the
least `m` with `N ≤ m * B`), batch `i` covers `passages[i*B : (i+1)*B]`, the
record ids of batch `i` start at `i*B`, the ids written over all batches form
exactly the contiguous range `[0, N)`, and `_write_embeddings` appends exactly
one formatted line per record to the staging file. -/
theorem c4_batcher_ids_contiguous {α : Type} (encode : Passage → List α)
    (sRepr : α → String) (passages : List Passage) (st : VertexIndex) (env : Env)
    (B : Nat) (hB : 0 < B) :
    (passages.length ≤ nBatch passages.length B * B ∧
      ∀ m, passages.length ≤ m * B → nBatch passages.length B ≤ m) ∧
    (∀ i, batchOf passages B i = (passages.drop (i * B)).take B) ∧
    (∀ i, (recordsOf encode passages B i).map Prod.fst
        = List.range' (i * B) (min B (passages.length - i * B))) ∧
    (allRecords encode passages B).map Prod.fst = List.range passages.length ∧
    (VertexIndex._write_embeddings encode sRepr passages st env B).2.tmpFile
      = env.tmpFile
        ++ (allRecords encode passages B).map (fun r => pyJsonLine sRepr r.1 r.2) :=
  ⟨⟨nBatch_mul_ge hB, fun _ hm => nBatch_le hB hm⟩,
   fun _ => rfl,
   fun i => recordsOf_fst encode passages B i,
   allRecords_fst encode passages hB,
   by rw [write_embeddings_eq]⟩

/-- Witness for C4 at the spec scenario: a ten-passage corpus with batch size 4
gives batch sizes `[4, 4, 2]` and ids `[0..9]`. -/
theorem c4_batcher_ids_contiguous_witness :
    (0 : Nat) < 4 ∧
    (List.range (nBatch 10 4)).map
        (fun i => (batchOf [⟨"p0"⟩, ⟨"p1"⟩, ⟨"p2"⟩, ⟨"p3"⟩, ⟨"p4"⟩, ⟨"p5"⟩,
          ⟨"p6"⟩, ⟨"p7"⟩, ⟨"p8"⟩, ⟨"p9"⟩] 4 i).length)
      = [4, 4, 2] ∧
    (allRecords (fun _ => ([] : List Nat)) [⟨"p0"⟩, ⟨"p1"⟩, ⟨"p2"⟩, ⟨"p3"⟩, ⟨"p4"⟩,
        ⟨"p5"⟩, ⟨"p6"⟩, ⟨"p7"⟩, ⟨"p8"⟩, ⟨"p9"⟩] 4).map Prod.fst
      = List.range 10 :=
  ⟨by decide, by decide,
   (c4_batcher_ids_contiguous (fun _ => ([] : List Nat)) toString
      [⟨"p0"⟩, ⟨"p1"⟩, ⟨"p2"⟩, ⟨"p3"⟩, ⟨"p4"⟩, ⟨"p5"⟩, ⟨"p6"⟩, ⟨"p7"⟩, ⟨"p8"⟩, ⟨"p9"⟩]
      { dim := 2, index_name := "index_m", endpoint_name := "endpoint_m",
        doc_map := [], index := none, endpoint := none }
      { world := { indexNames := [], endpointNames := [] }, tmpFile := [] }
      4 (by decide)).2.2.2.1⟩

/-- C8: the sink writes, for each pair of `zip(indices, embeddings)`, exactly
one JSON object per line whose `id` field is the decimal string of the ordinal
and whose `embedding` field is the ordered array of the textual representations
of the components; the file is opened in append mode, so writing the same load
twice without clearing the staging file yields both copies of every record. -/
theorem c8_sink_format {α : Type} (sRepr : α → String) (file : List String)
    (embeddings : List (List α)) (indices : List Nat) :
    VertexIndex._write_embeddings_to_tmp_file sRepr file embeddings indices
      = file ++ (indices.zip embeddings).map (fun r => pyJsonLine sRepr r.1 r.2) ∧
    (∀ i e, pyJsonLine sRepr i e
      = "\x7b\"id\": \"" ++ toString i ++ "\"" ++ ", " ++ "\"embedding\": ["
          ++ String.intercalate ", " (e.map (fun v => "\"" ++ sRepr v ++ "\""))
          ++ "]" ++ "\x7d" ++ "\n") ∧
    VertexIndex._write_embeddings_to_tmp_file sRepr
        (VertexIndex._write_embeddings_to_tmp_file sRepr file embeddings indices)
        embeddings indices
      = file ++ (indices.zip embeddings).map (fun r => pyJsonLine sRepr r.1 r.2)
             ++ (indices.zip embeddings).map (fun r => pyJsonLine sRepr r.1 r.2) := by
  refine ⟨rfl, ?_, rfl⟩
  intro i e
  have h2 : ∀ (a b : String), String.intercalate ", " [a, b] = a ++ ", " ++ b := by
    intro a b
    rfl
  simp only [pyJsonLine, jsonDumpsRecord, jsonArrOfStrings, h2, List.map_map,
    Function.comp_def, jsonStr]
  simp [← String.append_assoc]

/-- Shared lemma: on a client whose index handle is bound, whose endpoint is
not yet bound but whose endpoint display name exists remotely, any search whose
backend response has at least one candidate for the first query aborts with
`AttributeError` on the attribute `doc` (the id-to-Passage mapping is stored
under `doc_map`, and no method ever assigns `doc`). -/
lemma search_endpoint_exists_error {α : Type} (encode : Passage → List α)
    (sRepr : α → String) (passages : List Passage) (st : VertexIndex) (env : Env)
    (hidx : ∃ hh, st.index = some hh) (hep : st.endpoint = none)
    (h : st.endpoint_name ∈ env.world.endpointNames)
    (x : Neighbor) (xs : List Neighbor) (rest : List (List Neighbor)) (topk : Nat) :
    VertexIndex.search encode sRepr passages st env ((x :: xs) :: rest) topk
      = Except.error (PyErr.attributeError "doc") := by
  unfold VertexIndex.search
  simp only [hep]
  rw [load_endpoint_bound_present encode sRepr passages st env hidx h, bind_ok]
  simp only []
  have hmap : pyListMap (fun x =>
      match VertexIndex.getattr
          ({ st with endpoint := some ({ name := st.endpoint_name }) } : VertexIndex)
          "doc" with
      | some v => pySubscript v x.id
      | none => Except.error (PyErr.attributeError "doc")) (pySortedDesc (x :: xs))
      = Except.error (PyErr.attributeError "doc") :=
    pyListMap_error (fun _ => rfl) (pySortedDesc_ne_nil x xs)
  rw [hmap, bind_error]

/-- C1 (code bug): at a client whose `doc_map` is populated and whose endpoint
is bound, a search whose backend returns one candidate does not return Passages
at all: the id-mapping step reads the attribute `doc`, which no method of the
class ever assigns (the mapping is stored in `doc_map`), so the call raises
`AttributeError`. -/
theorem c1_search_doc_attribute_error :
    VertexIndex.search (fun _ => ([] : List Nat)) toString ([] : List Passage)
      { dim := 2, index_name := "index_m", endpoint_name := "endpoint_m",
        doc_map := [(0, { text := "p0" })], index := some ({ name := "index_m" }),
        endpoint := some ({ name := "endpoint_m" }) }
      { world := { indexNames := ["index_m"], endpointNames := ["endpoint_m"] },
        tmpFile := [] }
      [[{ id := 0, distance := 3 }]] 1
      = Except.error (PyErr.attributeError "doc") := by
  rfl

/-- C2 (code bug): on a client whose index handle is bound but whose endpoint
is unset, when no endpoint resource with the configured display name exists,
`load_endpoint` does not deploy the index and does not end with a bound
endpoint handle: the deploy branch evaluates `self.endpoint.display_name`
while `self.endpoint` is `None`, raising `AttributeError`. -/
theorem c2_load_endpoint_deploy_attribute_error :
    VertexIndex.load_endpoint (fun _ => ([] : List Nat)) toString ([] : List Passage)
      { dim := 2, index_name := "index_m", endpoint_name := "endpoint_m",
        doc_map := [], index := some ({ name := "index_m" }), endpoint := none }
      { world := { indexNames := ["index_m"], endpointNames := [] }, tmpFile := [] }
      = Except.error (PyErr.attributeError "display_name") := by
  rfl

/-- C10: for every constructed client state, the attribute `doc` read by the
id-to-Passage mapping step of `search` resolves to nothing (no method ever
assigns it; the mapping lives in `doc_map`), and consequently any `search`
call that returns successfully returns the empty list: `search` can never
successfully return a nonempty list of Passages, even when `doc_map` is
populated. -/
theorem c10_search_never_returns_passages {α : Type} (encode : Passage → List α)
    (sRepr : α → String) (passages : List Passage) (st : VertexIndex) :
    VertexIndex.getattr st "doc" = none ∧
    ∀ (env : Env) (response : List (List Neighbor)) (topk : Nat)
      (docs : List Passage) (st1 : VertexIndex) (env1 : Env) (tr : List RemoteCall),
      VertexIndex.search encode sRepr passages st env response topk
          = Except.ok (docs, st1, env1, tr) → docs = [] := by
  refine ⟨getattr_doc st, ?_⟩
  intro env response topk docs st1 env1 tr h
  unfold VertexIndex.search at h
  have tail : ∀ (trip : VertexIndex × Env × List RemoteCall),
      (Except.ok trip >>= fun r =>
        match response with
        | [] => Except.error PyErr.indexError
        | first :: _ =>
          pyListMap (fun x =>
            match VertexIndex.getattr r.1 "doc" with
            | some v => pySubscript v x.id
            | none => Except.error (PyErr.attributeError "doc")) (pySortedDesc first)
            >>= fun ds => Except.ok (ds, r.1, r.2.1,
              r.2.2 ++ [RemoteCall.matchQuery r.1.index_name topk]))
          = Except.ok (docs, st1, env1, tr) → docs = [] := by
    intro trip hh
    rw [bind_ok] at hh
    cases response with
    | nil => exact absurd hh (by simp)
    | cons first rest =>
      simp only [] at hh
      cases hpm : pyListMap (fun x =>
          match VertexIndex.getattr trip.1 "doc" with
          | some v => pySubscript v x.id
          | none => Except.error (PyErr.attributeError "doc")) (pySortedDesc first) with
      | error e2 =>
        rw [hpm, bind_error] at hh
        exact absurd hh (by simp)
      | ok v =>
        rw [hpm, bind_ok] at hh
        have hv : v = [] := pyListMap_ok_nil (fun _ => rfl) hpm
        have hdocs : v = docs := by
          have h1 := congrArg (fun r => match r with
            | Except.ok p => p.1
            | Except.error _ => ([] : List Passage)) hh
          simpa using h1
        rw [← hdocs, hv]
  cases hep : st.endpoint with
  | none =>
    simp only [hep] at h
    cases hle : VertexIndex.load_endpoint encode sRepr passages st env with
    | error e =>
      rw [hle, bind_error] at h
      exact absurd h (by simp)
    | ok trip =>
      rw [hle] at h
      exact tail trip h
  | some hh =>
    simp only [hep] at h
    exact tail (st, env, []) h

/-- Witness for C10 at a concrete client: the `doc` attribute resolves to
nothing, and a successful search (empty candidate set) returns no Passages. -/
theorem c10_search_never_returns_passages_witness :
    VertexIndex.getattr
      { dim := 2, index_name := "index_m", endpoint_name := "endpoint_m",
        doc_map := [], index := some ({ name := "index_m" }),
        endpoint := some ({ name := "endpoint_m" }) } "doc" = none ∧
    ([] : List Passage) = [] :=
  ⟨(c10_search_never_returns_passages (fun _ => ([] : List Nat)) toString
      ([] : List Passage)
      { dim := 2, index_name := "index_m", endpoint_name := "endpoint_m",
        doc_map := [], index := some ({ name := "index_m" }),
        endpoint := some ({ name := "endpoint_m" }) }).1,
   (c10_search_never_returns_passages (fun _ => ([] : List Nat)) toString
      ([] : List Passage)
      { dim := 2, index_name := "index_m", endpoint_name := "endpoint_m",
        doc_map := [], index := some ({ name := "index_m" }),
        endpoint := some ({ name := "endpoint_m" }) }).2
      { world := { indexNames := ["index_m"], endpointNames := ["endpoint_m"] },
        tmpFile := [] }
      [[]] 1 []
      { dim := 2, index_name := "index_m", endpoint_name := "endpoint_m",
        doc_map := [], index := some ({ name := "index_m" }),
        endpoint := some ({ name := "endpoint_m" }) }
      { world := { indexNames := ["index_m"], endpointNames := ["endpoint_m"] },
        tmpFile := [] }
      [RemoteCall.matchQuery "index_m" 1] rfl⟩

/-- C3: if `load_index()` takes the branch where an index with the configured
display name already exists remotely, the DocMap is never populated (it stays
the empty mapping the constructor created), and every subsequent search call
on that freshly constructed client whose backend response has a candidate
(here with the endpoint resource also existing, so that search reaches the
id-lookup step) fails its id lookup with an `AttributeError` rather than
returning Passages. -/
theorem c3_preexisting_index_empty_docmap_search_fails {α : Type}
    (encode : Passage → List α) (sRepr : α → String) (passages : List Passage)
    (dim : Nat) (model_name_as_path : String → String) (model_name : String)
    (env : Env)
    (h1 : ("index_" ++ model_name_as_path model_name) ∈ env.world.indexNames)
    (h2 : ("endpoint_" ++ model_name_as_path model_name) ∈ env.world.endpointNames) :
    (VertexIndex.load_index encode sRepr passages
        (VertexIndex.init dim model_name_as_path model_name) env).1.doc_map = [] ∧
    ∀ (x : Neighbor) (xs : List Neighbor) (rest : List (List Neighbor)) (topk : Nat),
      VertexIndex.search encode sRepr passages
          (VertexIndex.load_index encode sRepr passages
            (VertexIndex.init dim model_name_as_path model_name) env).1
          (VertexIndex.load_index encode sRepr passages
            (VertexIndex.init dim model_name_as_path model_name) env).2.1
          ((x :: xs) :: rest) topk
        = Except.error (PyErr.attributeError "doc") := by
  have hli := load_index_present encode sRepr passages
    (VertexIndex.init dim model_name_as_path model_name) env h1
  constructor
  · rw [hli]
    rfl
  · intro x xs rest topk
    rw [hli]
    exact search_endpoint_exists_error encode sRepr passages _ _ ⟨_, rfl⟩ rfl h2
      x xs rest topk

/-- Witness for C3 at a concrete pre-existing index and endpoint. -/
theorem c3_preexisting_index_empty_docmap_search_fails_witness :
    (VertexIndex.load_index (fun _ => ([] : List Nat)) toString ([] : List Passage)
        (VertexIndex.init 2 (fun s => s) "m")
        { world := { indexNames := ["index_m"], endpointNames := ["endpoint_m"] },
          tmpFile := [] }).1.doc_map = [] ∧
    VertexIndex.search (fun _ => ([] : List Nat)) toString ([] : List Passage)
        (VertexIndex.load_index (fun _ => ([] : List Nat)) toString ([] : List Passage)
          (VertexIndex.init 2 (fun s => s) "m")
          { world := { indexNames := ["index_m"], endpointNames := ["endpoint_m"] },
            tmpFile := [] }).1
        (VertexIndex.load_index (fun _ => ([] : List Nat)) toString ([] : List Passage)
          (VertexIndex.init 2 (fun s => s) "m")
          { world := { indexNames := ["index_m"], endpointNames := ["endpoint_m"] },
            tmpFile := [] }).2.1
        [[{ id := 0, distance := 3 }]] 1
      = Except.error (PyErr.attributeError "doc") :=
  ⟨(c3_preexisting_index_empty_docmap_search_fails (fun _ => ([] : List Nat))
      toString ([] : List Passage) 2 (fun s => s) "m"
      { world := { indexNames := ["index_m"], endpointNames := ["endpoint_m"] },
        tmpFile := [] } (by decide) (by decide)).1,
   (c3_preexisting_index_empty_docmap_search_fails (fun _ => ([] : List Nat))
      toString ([] : List Passage) 2 (fun s => s) "m"
      { world := { indexNames := ["index_m"], endpointNames := ["endpoint_m"] },
        tmpFile := [] } (by decide) (by decide)).2
      { id := 0, distance := 3 } [] [] 1⟩

/-- C5 counterexample: on a client whose index handle is already held, a
further `load_index()` call is not a no-op — it performs a remote existence
check (nonempty remote-call trace), because the method never tests whether
the handle is already bound. -/
theorem c5_counterexample_second_call_not_noop :
    ({ dim := 2, index_name := "index_m", endpoint_name := "endpoint_m",
       doc_map := [], index := some ({ name := "index_m" }), endpoint := none }
      : VertexIndex).index ≠ none ∧
    (VertexIndex.load_index (fun _ => ([] : List Nat)) toString ([] : List Passage)
        { dim := 2, index_name := "index_m", endpoint_name := "endpoint_m",
          doc_map := [], index := some ({ name := "index_m" }), endpoint := none }
        { world := { indexNames := ["index_m"], endpointNames := [] },
          tmpFile := [] }).2.2
      ≠ ([] : List RemoteCall) :=
  ⟨by decide, by decide⟩

/-- C5 (amended): `load_index()` does not test whether the handle is already
held — a second call re-runs the remote existence check and re-binds the
handle rather than being a no-op — but the create-idempotence does hold:
calling `load_index()` twice with the same display name results in exactly one
remote create call, the second call finding the name, issuing zero create
calls, and ending with the bound handle. -/
theorem c5_amended_two_calls_one_create {α : Type} (encode : Passage → List α)
    (sRepr : α → String) (passages : List Passage) (st : VertexIndex) (env : Env)
    (h : st.index_name ∉ env.world.indexNames) :
    ((VertexIndex.load_index encode sRepr passages st env).2.2.countP
        RemoteCall.isCreate = 1) ∧
    ((VertexIndex.load_index encode sRepr passages
        (VertexIndex.load_index encode sRepr passages st env).1
        (VertexIndex.load_index encode sRepr passages st env).2.1).2.2.countP
        RemoteCall.isCreate = 0) ∧
    (VertexIndex.load_index encode sRepr passages
        (VertexIndex.load_index encode sRepr passages st env).1
        (VertexIndex.load_index encode sRepr passages st env).2.1).1.index
      = some ({ name := st.index_name }) := by
  rw [load_index_absent encode sRepr passages st env h]
  simp only []
  have hpres := load_index_present encode sRepr passages
    { st with index := some ({ name := st.index_name }), doc_map := passages.enum }
    { world := { indexNames := env.world.indexNames ++ [st.index_name],
                 endpointNames := env.world.endpointNames },
      tmpFile := env.tmpFile
        ++ (allRecords encode passages 512).map (fun r => pyJsonLine sRepr r.1 r.2) }
    (by simp)
  rw [hpres]
  exact ⟨rfl, rfl, rfl⟩

/-- Witness for C5's amended statement at a fresh client and an empty remote
world. -/
theorem c5_amended_two_calls_one_create_witness :
    ((VertexIndex.load_index (fun _ => ([] : List Nat)) toString ([] : List Passage)
        { dim := 2, index_name := "index_m", endpoint_name := "endpoint_m",
          doc_map := [], index := none, endpoint := none }
        { world := { indexNames := [], endpointNames := [] },
          tmpFile := [] }).2.2.countP RemoteCall.isCreate = 1) ∧
    ((VertexIndex.load_index (fun _ => ([] : List Nat)) toString ([] : List Passage)
        (VertexIndex.load_index (fun _ => ([] : List Nat)) toString ([] : List Passage)
          { dim := 2, index_name := "index_m", endpoint_name := "endpoint_m",
            doc_map := [], index := none, endpoint := none }
          { world := { indexNames := [], endpointNames := [] },
            tmpFile := [] }).1
        (VertexIndex.load_index (fun _ => ([] : List Nat)) toString ([] : List Passage)
          { dim := 2, index_name := "index_m", endpoint_name := "endpoint_m",
            doc_map := [], index := none, endpoint := none }
          { world := { indexNames := [], endpointNames := [] },
            tmpFile := [] }).2.1).2.2.countP RemoteCall.isCreate = 0) ∧
    (VertexIndex.load_index (fun _ => ([] : List Nat)) toString ([] : List Passage)
        (VertexIndex.load_index (fun _ => ([] : List Nat)) toString ([] : List Passage)
          { dim := 2, index_name := "index_m", endpoint_name := "endpoint_m",
            doc_map := [], index := none, endpoint := none }
          { world := { indexNames := [], endpointNames := [] },
            tmpFile := [] }).1
        (VertexIndex.load_index (fun _ => ([] : List Nat)) toString ([] : List Passage)
          { dim := 2, index_name := "index_m", endpoint_name := "endpoint_m",
            doc_map := [], index := none, endpoint := none }
          { world := { indexNames := [], endpointNames := [] },
            tmpFile := [] }).2.1).1.index
      = some ({ name := "index_m" }) :=
  c5_amended_two_calls_one_create (fun _ => ([] : List Nat)) toString
    ([] : List Passage)
    { dim := 2, index_name := "index_m", endpoint_name := "endpoint_m",
      doc_map := [], index := none, endpoint := none }
    { world := { indexNames := [], endpointNames := [] }, tmpFile := [] }
    (by decide)

/-- C6: when `load_index()` finds no index resource with the configured
display name, it performs exactly once the sequence: existence check; create
of the empty index with the target dimensionality, dot-product distance
measure, small shard size and streaming-update mode; the embedding batching
and sink pipeline (the staging file grows by exactly the formatted records and
`doc_map` is rebuilt from the corpus); the upload of the staged file; and the
bulk update of the index contents from the staging bucket URI — ending with a
bound index handle. -/
theorem c6_absent_create_pipeline_once {α : Type} (encode : Passage → List α)
    (sRepr : α → String) (passages : List Passage) (st : VertexIndex) (env : Env)
    (h : st.index_name ∉ env.world.indexNames) :
    VertexIndex.load_index encode sRepr passages st env
      = ({ st with index := some ({ name := st.index_name }), doc_map := passages.enum },
         { world := { indexNames := env.world.indexNames ++ [st.index_name],
                      endpointNames := env.world.endpointNames },
           tmpFile := env.tmpFile
             ++ (allRecords encode passages 512).map
                  (fun r => pyJsonLine sRepr r.1 r.2) },
         [RemoteCall.listIndexes ("display_name=" ++ st.index_name),
          RemoteCall.createIndex st.index_name st.dim
            "DOT_PRODUCT_DISTANCE" "SHARD_SIZE_SMALL" "STREAM_UPDATE",
          RemoteCall.uploadBlob GCS_BUCKET_NAME TMP_FILE_PATH,
          RemoteCall.updateEmbeddings GCS_BUCKET_URI]) :=
  load_index_absent encode sRepr passages st env h

/-- Witness for C6 at a concrete one-passage corpus and an empty remote world. -/
theorem c6_absent_create_pipeline_once_witness :
    VertexIndex.load_index (fun _ => ([1] : List Nat)) toString [{ text := "p0" }]
        { dim := 2, index_name := "index_m", endpoint_name := "endpoint_m",
          doc_map := [], index := none, endpoint := none }
        { world := { indexNames := [], endpointNames := [] }, tmpFile := [] }
      = ({ dim := 2, index_name := "index_m", endpoint_name := "endpoint_m",
           doc_map := [({ text := "p0" } : Passage)].enum,
           index := some ({ name := "index_m" }), endpoint := none },
         { world := { indexNames := [] ++ ["index_m"], endpointNames := [] },
           tmpFile := [] ++ (allRecords (fun _ => ([1] : List Nat))
             [{ text := "p0" }] 512).map
               (fun r => pyJsonLine toString r.1 r.2) },
         [RemoteCall.listIndexes ("display_name=" ++ "index_m"),
          RemoteCall.createIndex "index_m" 2
            "DOT_PRODUCT_DISTANCE" "SHARD_SIZE_SMALL" "STREAM_UPDATE",
          RemoteCall.uploadBlob GCS_BUCKET_NAME TMP_FILE_PATH,
          RemoteCall.updateEmbeddings GCS_BUCKET_URI]) :=
  c6_absent_create_pipeline_once (fun _ => ([1] : List Nat)) toString
    [{ text := "p0" }]
    { dim := 2, index_name := "index_m", endpoint_name := "endpoint_m",
      doc_map := [], index := none, endpoint := none }
    { world := { indexNames := [], endpointNames := [] }, tmpFile := [] }
    (by decide)

/-- C7: when an index resource with the configured display name already exists
remotely, `load_index()` performs exactly one existence check, binds the index
handle, and issues zero create calls and zero upload calls — the environment
(staging file and remote world) is unchanged, so no embedding, staging-file
write, or bucket upload occurs. -/
theorem c7_present_one_check_zero_creates {α : Type} (encode : Passage → List α)
    (sRepr : α → String) (passages : List Passage) (st : VertexIndex) (env : Env)
    (h : st.index_name ∈ env.world.indexNames) :
    VertexIndex.load_index encode sRepr passages st env
      = ({ st with index := some ({ name := st.index_name }) }, env,
         [RemoteCall.listIndexes ("display_name=" ++ st.index_name)]) ∧
    ((VertexIndex.load_index encode sRepr passages st env).2.2.countP
        RemoteCall.isCreate = 0) ∧
    ((VertexIndex.load_index encode sRepr passages st env).2.2.countP
        RemoteCall.isUpload = 0) ∧
    (VertexIndex.load_index encode sRepr passages st env).2.1 = env := by
  have hp := load_index_present encode sRepr passages st env h
  rw [hp]
  exact ⟨rfl, rfl, rfl, rfl⟩

/-- Witness for C7 at a concrete pre-existing index. -/
theorem c7_present_one_check_zero_creates_witness :
    VertexIndex.load_index (fun _ => ([] : List Nat)) toString ([] : List Passage)
        { dim := 2, index_name := "index_m", endpoint_name := "endpoint_m",
          doc_map := [], index := none, endpoint := none }
        { world := { indexNames := ["index_m"], endpointNames := [] },
          tmpFile := [] }
      = ({ dim := 2, index_name := "index_m", endpoint_name := "endpoint_m",
           doc_map := [], index := some ({ name := "index_m" }), endpoint := none },
         { world := { indexNames := ["index_m"], endpointNames := [] },
           tmpFile := [] },
         [RemoteCall.listIndexes ("display_name=" ++ "index_m")]) ∧
    ((VertexIndex.load_index (fun _ => ([] : List Nat)) toString ([] : List Passage)
        { dim := 2, index_name := "index_m", endpoint_name := "endpoint_m",
          doc_map := [], index := none, endpoint := none }
        { world := { indexNames := ["index_m"], endpointNames := [] },
          tmpFile := [] }).2.2.countP RemoteCall.isCreate = 0) ∧
    ((VertexIndex.load_index (fun _ => ([] : List Nat)) toString ([] : List Passage)
        { dim := 2, index_name := "index_m", endpoint_name := "endpoint_m",
          doc_map := [], index := none, endpoint := none }
        { world := { indexNames := ["index_m"], endpointNames := [] },
          tmpFile := [] }).2.2.countP RemoteCall.isUpload = 0) ∧
    (VertexIndex.load_index (fun _ => ([] : List Nat)) toString ([] : List Passage)
        { dim := 2, index_name := "index_m", endpoint_name := "endpoint_m",
          doc_map := [], index := none, endpoint := none }
        { world := { indexNames := ["index_m"], endpointNames := [] },
          tmpFile := [] }).2.1
      = { world := { indexNames := ["index_m"], endpointNames := [] },
          tmpFile := [] } :=
  c7_present_one_check_zero_creates (fun _ => ([] : List Nat)) toString
    ([] : List Passage)
    { dim := 2, index_name := "index_m", endpoint_name := "endpoint_m",
      doc_map := [], index := none, endpoint := none }
    { world := { indexNames := ["index_m"], endpointNames := [] }, tmpFile := [] }
    (by decide)

end Arena
